import Mathlib

/-!
A shallow embedding of the version-adaptive foreign-function binding layer of
libclangpy (`libclang.py`), together with proofs about it.

Modelling conventions:
* Library versions are floats in the source (2.7 .. 3.4); every comparison in
  the source is exact on tenths, so versions are embedded as natural numbers
  scaled by ten (27 means 2.7, 34 means 3.4).
* The loaded native library is embedded as the list of symbol names it
  exports, plus the mutable attribute dictionary that `getattr`/`setattr`
  manipulate on the ctypes library object.
* Python exceptions are embedded as explicit outcome values; stateful code is
  embedded as explicit state passing.
-/

namespace Libclangpy

/-- A ctypes field type as used in the struct layouts of libclang.py. -/
inductive FieldTy where
  | c_uint
  | c_int
  | c_void_p_arr (n : Nat)
deriving DecidableEq

/-- A struct layout: the `_fields_` list of a ctypes Structure. -/
abbrev StructLayout := List (String × FieldTy)

/-- The `_CXCursor27` layout (libclang.py lines 83-87): kind plus 3 data slots. -/
def _CXCursor27 : StructLayout :=
  [("kind", FieldTy.c_uint), ("data", FieldTy.c_void_p_arr 3)]

/-- The `_CXCursor30` layout (libclang.py lines 89-94): kind, the extra xdata
tag field, and 3 data slots. -/
def _CXCursor30 : StructLayout :=
  [("kind", FieldTy.c_uint), ("xdata", FieldTy.c_int), ("data", FieldTy.c_void_p_arr 3)]

/-- A ctypes type as it appears in binding signatures and the dynamic type
table of libclang.py. -/
inductive CTy where
  | c_int
  | c_uint
  | c_void_p
  | py_object
  | c_utf8_p
  | cxString
  | cxSourceLocation
  | cxSourceRange
  | cxUnsavedFile
  | struct (name : String) (fields : StructLayout)
  | pointer (t : CTy)
  | cfunctype (ret arg1 arg2 arg3 : CTy)
deriving DecidableEq

/-- The `_version_checks` table of `_detect_version` (libclang.py lines
132-141): (version in tenths, marker symbol), in strictly descending order. -/
def _version_checks : List (Nat × String) :=
  [(34, "clang_Type_getClassType"),
   (33, "clang_getTypeSpelling"),
   (32, "clang_Cursor_getReceiverType"),
   (31, "clang_Cursor_getArgument"),
   (30, "clang_Range_isNull"),
   (29, "clang_getDiagnosticOption"),
   (28, "clang_isUnexposed"),
   (27, "clang_isInvalid")]

/-- The return value of `_detect_version` (libclang.py lines 124-146): the
first entry of `_version_checks` whose marker symbol the library exports, or
nothing when the final `raise Exception` is reached. -/
def _detect_version (symbols : List String) : Option Nat :=
  match _version_checks.find? (fun p => symbols.contains p.2) with
  | some (v, _) => some v
  | none => none

/-- `_detect_version` with the module-level `version` global made explicit:
returns (new value of the global, returned value).  On the exception path the
global is left untouched and nothing is returned. -/
def _detect_version_run (symbols : List String) (version0 : Option Nat) :
    Option Nat × Option Nat :=
  match _version_checks.find? (fun p => symbols.contains p.2) with
  | some (v, _) => (some v, some v)
  | none => (version0, none)

/-- The `load` function (libclang.py lines 148-167), restricted to the part
visible to this layer: detect the version from the exported symbols, then
populate `_dynamic_types` with the version-correct cursor layout and the
pointer, pointer-to-pointer and callback types derived from it.  Returns
nothing when `_detect_version` raises. -/
def load (symbols : List String) : Option (Nat × List (String × CTy)) :=
  match _detect_version symbols with
  | none => none
  | some lib_version =>
    if 30 ≤ lib_version then
      some (lib_version,
        [("_CXCursor", CTy.struct "_CXCursor30" _CXCursor30),
         ("_CXCursor*", CTy.pointer (CTy.struct "_CXCursor30" _CXCursor30)),
         ("_CXCursor**", CTy.pointer (CTy.pointer (CTy.struct "_CXCursor30" _CXCursor30))),
         ("cb_cursor_visitor",
          CTy.cfunctype CTy.c_int (CTy.struct "_CXCursor30" _CXCursor30)
            (CTy.struct "_CXCursor30" _CXCursor30) CTy.py_object)])
    else
      some (lib_version,
        [("_CXCursor", CTy.struct "_CXCursor27" _CXCursor27),
         ("_CXCursor*", CTy.pointer (CTy.struct "_CXCursor27" _CXCursor27)),
         ("_CXCursor**", CTy.pointer (CTy.pointer (CTy.struct "_CXCursor27" _CXCursor27))),
         ("cb_cursor_visitor",
          CTy.cfunctype CTy.c_int (CTy.struct "_CXCursor27" _CXCursor27)
            (CTy.struct "_CXCursor27" _CXCursor27) CTy.py_object)])

example : _detect_version ["clang_isInvalid", "clang_Range_isNull"] = some 30 := by decide

example : _detect_version ["not_a_symbol"] = none := by decide

/-- A Python exception kind observable in the binding layer. -/
inductive PyExc where
  | attributeError
  | missingFunction
  | keyError
deriving DecidableEq

/-- A type reference in a decorator signature: either a concrete ctypes type,
or a logical string key (e.g. "_CXCursor") looked up in `_dynamic_types`. -/
inductive TypeRef where
  | concrete (t : CTy)
  | logical (key : String)
deriving DecidableEq

/-- An attribute value stored on the ctypes library object for a symbol name.
A ctypes function object carries the `registered` flag (absence of the
attribute reads as false through the AttributeError handler in `_bind_api`)
and the attached `argtypes`/`restype` (absent until assigned; a `restype` of
`some none` is an attached Python `None`).  `none_` is the `None` sentinel
that the `optional` decorator stores for an absent symbol. -/
inductive LibAttr where
  | func (registered : Bool) (argtypes : Option (List CTy)) (restype : Option (Option CTy))
  | none_
deriving DecidableEq

/-- The loaded library: its exported symbol names and the attribute
dictionary of the ctypes library object. -/
structure LibState where
  exported : List String
  attrs : List (String × LibAttr)
deriving DecidableEq

/-- `setattr` on the library object: stores the value under the name,
replacing any previous entry. -/
def setAttr (st : LibState) (name : String) (v : LibAttr) : LibState :=
  { st with attrs := (name, v) :: st.attrs.filter (fun p => p.1 != name) }

/-- `getattr` on the ctypes library object: a name already in the attribute
dictionary is returned as is; otherwise a present exported symbol yields a
fresh function object (cached in the dictionary, as ctypes `__getattr__`
does), and an absent symbol raises AttributeError. -/
def getattrLib (st : LibState) (name : String) : Except PyExc (LibAttr × LibState) :=
  match st.attrs.lookup name with
  | some a => Except.ok (a, st)
  | none =>
    if st.exported.contains name then
      Except.ok (LibAttr.func false none none, setAttr st name (LibAttr.func false none none))
    else
      Except.error PyExc.attributeError

/-- `_map_type` (libclang.py lines 174-177): a string is looked up in
`_dynamic_types` (raising KeyError when absent), anything else is returned
unchanged. -/
def _map_type (dyn : List (String × CTy)) : TypeRef → Except PyExc CTy
  | TypeRef.concrete t => Except.ok t
  | TypeRef.logical key =>
    match dyn.lookup key with
    | some t => Except.ok t
    | none => Except.error PyExc.keyError

/-- The list comprehension `[_map_type(x) for x in argtypes]` of `_bind_api`:
the first lookup failure propagates. -/
def _map_types (dyn : List (String × CTy)) : List TypeRef → Except PyExc (List CTy)
  | [] => Except.ok []
  | t :: ts =>
    match _map_type dyn t with
    | Except.error e => Except.error e
    | Except.ok c =>
      match _map_types dyn ts with
      | Except.error e => Except.error e
      | Except.ok cs => Except.ok (c :: cs)

/-- `_map_type(restype)` where `restype` may be Python `None` (mapped to
`None`, since `None` is not a string). -/
def _map_restype (dyn : List (String × CTy)) : Option TypeRef → Except PyExc (Option CTy)
  | none => Except.ok none
  | some t =>
    match _map_type dyn t with
    | Except.error e => Except.error e
    | Except.ok c => Except.ok (some c)

/-- The outcome of a stateful call: the library state after it, and the
exception it raised, if any. -/
structure BindResult where
  state : LibState
  exc : Option PyExc
deriving DecidableEq

/-- `_bind_api` (libclang.py lines 179-194).  `getattr` failure raises
MissingFunction.  When the retrieved attribute is the `None` sentinel left by
`optional`, reading `registered` raises AttributeError (caught, leaving
`registered = False`), and the subsequent assignment `api.argtypes = ...`
evaluates the list comprehension and then raises AttributeError, because
`None` accepts no attribute assignment.  When the attribute is a function
object, an already-registered one is left untouched; otherwise the argument
types, the return type and the `registered` flag are attached in that
order. -/
def _bind_api (dyn : List (String × CTy)) (st : LibState) (name : String)
    (argtypes : List TypeRef) (restype : Option TypeRef) : BindResult :=
  match getattrLib st name with
  | Except.error _ => ⟨st, some PyExc.missingFunction⟩
  | Except.ok (api, st1) =>
    match api with
    | LibAttr.none_ =>
      match _map_types dyn argtypes with
      | Except.error e => ⟨st1, some e⟩
      | Except.ok _ => ⟨st1, some PyExc.attributeError⟩
    | LibAttr.func registered at0 rt0 =>
      if registered then ⟨st1, none⟩
      else
        match _map_types dyn argtypes with
        | Except.error e => ⟨st1, some e⟩
        | Except.ok ats =>
          let st2 := setAttr st1 name (LibAttr.func false (some ats) rt0)
          match _map_restype dyn restype with
          | Except.error e => ⟨st2, some e⟩
          | Except.ok rt =>
            let st3 := setAttr st2 name (LibAttr.func false (some ats) (some rt))
            ⟨setAttr st3 name (LibAttr.func true (some ats) (some rt)), none⟩

/-- The body of an operation wrapped by a decorator: it may mutate the
library state and either return a value or raise. -/
abbrev Body (α : Type) := LibState → LibState × Except PyExc α

/-- The `call` wrapper produced by the `requires` decorator (libclang.py
lines 196-205): when a symbol name is given, `_bind_api` runs first and any
exception it raises propagates to the caller without the body running;
otherwise the body runs. -/
def requiresCall {α : Type} (version : Nat) (name : Option String)
    (argtypes : List TypeRef) (restype : Option TypeRef) (f : Body α)
    (dyn : List (String × CTy)) (st : LibState) : LibState × Except PyExc α :=
  match name with
  | none => f st
  | some n =>
    let r := _bind_api dyn st n argtypes restype
    match r.exc with
    | some e => (r.state, Except.error e)
    | none => f r.state

/-- The `call` wrapper produced by the `optional` decorator (libclang.py
lines 207-219): `_bind_api` runs first; a MissingFunction failure is caught
and the library attribute for the name is set to the `None` sentinel before
the body runs; any other exception propagates without the body running. -/
def optionalCall {α : Type} (version : Nat) (name : String)
    (argtypes : List TypeRef) (restype : Option TypeRef) (f : Body α)
    (dyn : List (String × CTy)) (st : LibState) : LibState × Except PyExc α :=
  let r := _bind_api dyn st name argtypes restype
  match r.exc with
  | some PyExc.missingFunction => f (setAttr r.state name LibAttr.none_)
  | some e => (r.state, Except.error e)
  | none => f r.state

/-- The `call` wrapper produced by the `deprecated` decorator (libclang.py
lines 221-228): it simply calls the body. -/
def deprecatedCall {α : Type} (version : Nat) (message : String) (f : Body α)
    (st : LibState) : LibState × Except PyExc α :=
  f st

/-- A native call made by the string marshaller; string handles are opaque
naturals. -/
inductive StrNativeCall where
  | getCString (s : Nat)
  | disposeString (s : Nat)
deriving DecidableEq

/-- `_to_str` (libclang.py lines 242-247): reads the bytes of the native
string handle via `clang_getCString` (whose result may be Python `None` for a
null string), then disposes the handle via `clang_disposeString`, and returns
the read value.  The second component is the exact sequence of native calls
the body makes, in order. -/
def _to_str (read : Nat → Option String) (s : Nat) :
    Option String × List StrNativeCall :=
  (read s, [StrNativeCall.getCString s, StrNativeCall.disposeString s])

/-- The native-call trace of running `_to_str` once per handle, in order. -/
def _to_str_cycles (read : Nat → Option String) (handles : List Nat) :
    List StrNativeCall :=
  (handles.map (fun h => (_to_str read h).2)).flatten

/-- A host-side cursor wrapper: the opaque `_CXCursor` handle, the parent
cursor handle stored in the wrapper, and the owning translation unit. -/
structure Cursor where
  handle : Nat
  parent : Option Nat
  tu : Option Nat
deriving DecidableEq

/-- The native environment that cursor operations consult: the
`clang_equalCursors` predicate and the `clang_getNullCursor` result. -/
structure ClangEnv where
  equalCursors : Nat → Nat → Bool
  nullCursor : Nat

/-- `Cursor.null` (libclang.py lines 1382-1386): wraps the result of
`clang_getNullCursor` with no parent and no translation unit. -/
def Cursor.null_cursor (env : ClangEnv) : Cursor :=
  ⟨env.nullCursor, none, none⟩

/-- `Cursor.__eq__` (libclang.py lines 1363-1365): the native
`clang_equalCursors` predicate applied to the two handles. -/
def Cursor.eq_cursor (env : ClangEnv) (self other : Cursor) : Bool :=
  env.equalCursors self.handle other.handle

/-- `Cursor.__ne__` (libclang.py lines 1367-1369): negation of `__eq__`. -/
def Cursor.ne_cursor (env : ClangEnv) (self other : Cursor) : Bool :=
  !(Cursor.eq_cursor env self other)

/-- The visitor closure inside `Cursor.children` (libclang.py lines
1430-1435): wraps the delivered child handle with the parent cursor and the
translation unit, appends it to the accumulated list unless it equals the
null cursor, and returns 1 (continue). -/
def childrenVisitor (env : ClangEnv) (self : Cursor) (child : Nat)
    (children : List Cursor) : Nat × List Cursor :=
  let c : Cursor := ⟨child, some self.handle, self.tu⟩
  (1, if Cursor.ne_cursor env c (Cursor.null_cursor env) then children ++ [c] else children)

/-- The native `clang_visitChildren` enumeration: invokes the callback once
per delivered child handle, in delivery order, stopping early when the
callback returns 0. -/
def clang_visitChildren (cb : Nat → List Cursor → Nat × List Cursor) :
    List Nat → List Cursor → List Cursor
  | [], acc => acc
  | child :: rest, acc =>
    match cb child acc with
    | (r, acc1) => if r = 0 then acc1 else clang_visitChildren cb rest acc1

/-- `Cursor.children` (libclang.py lines 1427-1438): runs the native visitor
over the delivered child handles starting from an empty accumulated list. -/
def Cursor.children (env : ClangEnv) (self : Cursor) (delivered : List Nat) :
    List Cursor :=
  clang_visitChildren (childrenVisitor env self) delivered []

/-- The UTF-8 encoding of a single code point, as Python's
`str.encode('utf-8')` produces it. -/
def utf8Bytes (c : Nat) : List Nat :=
  if c < 0x80 then [c]
  else if c < 0x800 then [0xC0 + c / 0x40, 0x80 + c % 0x40]
  else if c < 0x10000 then
    [0xE0 + c / 0x1000, 0x80 + (c / 0x40) % 0x40, 0x80 + c % 0x40]
  else
    [0xF0 + c / 0x40000, 0x80 + (c / 0x1000) % 0x40, 0x80 + (c / 0x40) % 0x40, 0x80 + c % 0x40]

/-- Python's `s.encode('utf-8')`: the concatenated UTF-8 bytes of the
string's code points. -/
def encodeUTF8 (s : String) : List Nat :=
  (s.data.map (fun ch => utf8Bytes ch.toNat)).flatten

/-- The `contents` argument of an unsaved file: either a plain string, or a
stream-like object whose `read` method returns a string. -/
inductive PyContents where
  | str (s : String)
  | stream (data : String)
deriving DecidableEq

/-- A populated `_CXUnsavedFile` array element (libclang.py lines 70-75 and
119-121): encoded filename, contents bytes, and the `length` field.  The
`length` field is a ctypes `c_uint`, a 32-bit machine integer; it is embedded
as a natural number that is always the stored value reduced modulo 2^32. -/
structure CXUnsavedFileVal where
  filename : List Nat
  contents : List Nat
  length : Nat
deriving DecidableEq

/-- The contents normalization inside `_marshall_unsaved_files` (libclang.py
lines 115-118): a stream-like object is read first and the result encoded,
a plain string is encoded directly. -/
def readOrEncode : PyContents → List Nat
  | PyContents.stream data => encodeUTF8 data
  | PyContents.str s => encodeUTF8 s

/-- `_marshall_unsaved_files` (libclang.py lines 110-122): an absent or empty
list yields (0, null pointer); otherwise the count is the list length and the
array holds, per pair, the encoded filename, the normalized contents bytes
and their byte length as stored by the assignment `ret[i].length =
len(contents)` into the `c_uint` field, which silently masks the value to 32
bits. -/
def _marshall_unsaved_files (unsaved_files : Option (List (String × PyContents))) :
    Nat × Option (List CXUnsavedFileVal) :=
  match unsaved_files with
  | none => (0, none)
  | some ufs =>
    if ufs.length = 0 then (0, none)
    else
      (ufs.length, some (ufs.map (fun p =>
        let contents := readOrEncode p.2
        ⟨encodeUTF8 p.1, contents, contents.length % 2 ^ 32⟩)))

/-- The native environment for source ranges: `clang_getRangeStart` and
`clang_getRangeEnd`, each mapping a range handle to a location handle. -/
structure RangeEnv where
  getRangeStart : Nat → Nat
  getRangeEnd : Nat → Nat

/-- A native call made by a source-range accessor. -/
inductive RangeNativeCall where
  | getRangeStart (r : Nat)
  | getRangeEnd (r : Nat)
deriving DecidableEq

/-- A host-side `SourceLocation` wrapper around a location handle. -/
structure SourceLocation where
  sl : Nat
deriving DecidableEq

/-- A host-side `SourceRange` wrapper around a range handle. -/
structure SourceRange where
  sr : Nat
deriving DecidableEq

/-- `SourceRange.start` (libclang.py lines 409-413): wraps the result of
`clang_getRangeStart` on the range handle; the second component is the native
call the body makes. -/
def SourceRange.start (env : RangeEnv) (self : SourceRange) :
    SourceLocation × List RangeNativeCall :=
  (⟨env.getRangeStart self.sr⟩, [RangeNativeCall.getRangeStart self.sr])

/-- `SourceRange.end` (libclang.py lines 415-419): the body as written calls
`clang_getRangeStart` on the range handle (line 418), although the decorator
on it binds `clang_getRangeEnd`; the second component is the native call the
body makes. -/
def SourceRange.end_ (env : RangeEnv) (self : SourceRange) :
    SourceLocation × List RangeNativeCall :=
  (⟨env.getRangeStart self.sr⟩, [RangeNativeCall.getRangeStart self.sr])

/-- Helper: `find?` on a list sorted by descending first component returns an
element whose first component dominates every element satisfying the
predicate. -/
theorem find?_fst_max (symbols : List String) :
    ∀ (l : List (Nat × String)), l.Pairwise (fun a b => b.1 ≤ a.1) →
      ∀ a, l.find? (fun p => symbols.contains p.2) = some a →
        ∀ b ∈ l, symbols.contains b.2 = true → b.1 ≤ a.1 := by
  intro l
  induction l with
  | nil => intro _ a ha; simp at ha
  | cons x xs ih =>
    intro hp a hfind b hb hpb
    rw [List.pairwise_cons] at hp
    cases hx : symbols.contains x.2 with
    | true =>
      simp only [List.find?, hx] at hfind
      injection hfind with h1
      subst h1
      rcases List.mem_cons.mp hb with h2 | h2
      · subst h2; exact le_refl _
      · exact hp.1 b h2
    | false =>
      simp only [List.find?, hx] at hfind
      rcases List.mem_cons.mp hb with h2 | h2
      · subst h2; rw [hpb] at hx; exact Bool.noConfusion hx
      · exact ih hp.2 a hfind b h2 hpb

/-- Helper: looking up the name just stored by `setAttr` yields the stored
value. -/
theorem lookup_setAttr_self (st : LibState) (name : String) (v : LibAttr) :
    (setAttr st name v).attrs.lookup name = some v := by
  simp [setAttr, List.lookup]

/-- Helper: `_bind_api` on a present, not yet retrieved symbol attaches the
mapped signature and the registered flag. -/
theorem bind_api_fresh_present (dyn : List (String × CTy)) (st : LibState)
    (name : String) (argtypes : List TypeRef) (restype : Option TypeRef)
    (ats : List CTy) (rt : Option CTy)
    (hexp : st.exported.contains name = true)
    (hlook : st.attrs.lookup name = none)
    (hats : _map_types dyn argtypes = Except.ok ats)
    (hrt : _map_restype dyn restype = Except.ok rt) :
    _bind_api dyn st name argtypes restype =
      ⟨setAttr (setAttr (setAttr (setAttr st name (LibAttr.func false none none))
          name (LibAttr.func false (some ats) none))
          name (LibAttr.func false (some ats) (some rt)))
          name (LibAttr.func true (some ats) (some rt)), none⟩ := by
  have hmem : name ∈ st.exported := by simpa using hexp
  simp [_bind_api, getattrLib, hmem, hlook, hats, hrt]

/-- Helper: `_bind_api` on a symbol whose cached function object is not yet
registered attaches the mapped signature, keeping the previously attached
return type until it is overwritten. -/
theorem bind_api_cached_unregistered (dyn : List (String × CTy)) (st : LibState)
    (name : String) (argtypes : List TypeRef) (restype : Option TypeRef)
    (ats : List CTy) (rt : Option CTy) (a : Option (List CTy)) (b : Option (Option CTy))
    (hlook : st.attrs.lookup name = some (LibAttr.func false a b))
    (hats : _map_types dyn argtypes = Except.ok ats)
    (hrt : _map_restype dyn restype = Except.ok rt) :
    _bind_api dyn st name argtypes restype =
      ⟨setAttr (setAttr (setAttr st name (LibAttr.func false (some ats) b))
          name (LibAttr.func false (some ats) (some rt)))
          name (LibAttr.func true (some ats) (some rt)), none⟩ := by
  simp [_bind_api, getattrLib, hlook, hats, hrt]

/-- Helper: `_bind_api` on a symbol whose function object is already
registered is a no-op that raises nothing. -/
theorem bind_api_registered (dyn : List (String × CTy)) (st : LibState)
    (name : String) (argtypes : List TypeRef) (restype : Option TypeRef)
    (a : Option (List CTy)) (b : Option (Option CTy))
    (hlook : st.attrs.lookup name = some (LibAttr.func true a b)) :
    _bind_api dyn st name argtypes restype = ⟨st, none⟩ := by
  simp [_bind_api, getattrLib, hlook]

/-- C2: `_detect_version` returns the highest version in its known list whose
marker symbol the library exports and never a version whose marker is absent;
when none of the eight markers is present it raises and leaves the
process-wide version global unchanged. -/
theorem detect_version_highest (symbols : List String) :
    (∀ v, _detect_version symbols = some v →
      (∃ api, (v, api) ∈ _version_checks ∧ symbols.contains api = true) ∧
      ∀ p ∈ _version_checks, symbols.contains p.2 = true → p.1 ≤ v) ∧
    ((∀ p ∈ _version_checks, symbols.contains p.2 = false) →
      ∀ v0, _detect_version_run symbols v0 = (v0, none)) := by
  constructor
  · intro v hv
    unfold _detect_version at hv
    cases hfind : _version_checks.find? (fun p => symbols.contains p.2) with
    | none => rw [hfind] at hv; simp at hv
    | some a =>
      obtain ⟨av, aapi⟩ := a
      rw [hfind] at hv
      simp only [Option.some.injEq] at hv
      subst hv
      constructor
      · exact ⟨aapi, List.mem_of_find?_eq_some hfind, by simpa using List.find?_some hfind⟩
      · intro p hp hcp
        exact find?_fst_max symbols _version_checks (by decide) (av, aapi) hfind p hp hcp
  · intro hall v0
    unfold _detect_version_run
    have hnone : _version_checks.find? (fun p => symbols.contains p.2) = none := by
      rw [List.find?_eq_none]
      intro p hp hc
      have hc2 : symbols.contains p.2 = true := by simpa using hc
      have hf := hall p hp
      rw [hc2] at hf
      exact Bool.noConfusion hf
    rw [hnone]

/-- Witness for C2 at concrete inputs: a library exporting the 2.7 and 3.0
markers is detected as 3.0 (maximal among present markers), and a library
with no marker leaves the version global unchanged. -/
theorem detect_version_highest_witness :
    ((∃ api, (30, api) ∈ _version_checks ∧
        (["clang_isInvalid", "clang_Range_isNull"] : List String).contains api = true) ∧
      ∀ p ∈ _version_checks,
        (["clang_isInvalid", "clang_Range_isNull"] : List String).contains p.2 = true →
          p.1 ≤ 30) ∧
    _detect_version_run ["not_a_clang_symbol"] none = (none, none) := by
  constructor
  · exact (detect_version_highest ["clang_isInvalid", "clang_Range_isNull"]).1 30 (by decide)
  · exact (detect_version_highest ["not_a_clang_symbol"]).2 (by decide) none

/-- C3: an operation wrapped by the `requires` decorator with a symbol name
raises MissingFunction to its caller when the symbol is absent from the
loaded library, with the wrapped body never executed (the outcome does not
involve the body at all); when the symbol is present the wrapped body is
executed. -/
theorem requires_binding_behavior (α : Type) (version : Nat) (name : String)
    (argtypes : List TypeRef) (restype : Option TypeRef) (dyn : List (String × CTy))
    (st : LibState) (f : Body α) :
    (st.exported.contains name = false → st.attrs.lookup name = none →
      requiresCall version (some name) argtypes restype f dyn st =
        (st, Except.error PyExc.missingFunction)) ∧
    (st.exported.contains name = true →
      (st.attrs.lookup name = none ∨
        ∃ r a b, st.attrs.lookup name = some (LibAttr.func r a b)) →
      (∃ ats, _map_types dyn argtypes = Except.ok ats) →
      (∃ rt, _map_restype dyn restype = Except.ok rt) →
      ∃ st1, requiresCall version (some name) argtypes restype f dyn st = f st1) := by
  constructor
  · intro hexp hlook
    have hmem : name ∉ st.exported := by simpa using hexp
    simp [requiresCall, _bind_api, getattrLib, hlook, hmem]
  · intro hexp hattr hats0 hrt0
    obtain ⟨ats, hats⟩ := hats0
    obtain ⟨rt, hrt⟩ := hrt0
    rcases hattr with hlook | ⟨r, a, b, hlook⟩
    · exact ⟨_, by rw [requiresCall,
        bind_api_fresh_present dyn st name argtypes restype ats rt hexp hlook hats hrt]⟩
    · cases r with
      | true => exact ⟨st, by rw [requiresCall,
          bind_api_registered dyn st name argtypes restype a b hlook]⟩
      | false => exact ⟨_, by rw [requiresCall,
          bind_api_cached_unregistered dyn st name argtypes restype ats rt a b hlook hats hrt]⟩

/-- Witness for C3 at concrete inputs: a required call on an absent symbol
raises MissingFunction; a required call on a present symbol runs the body. -/
theorem requires_binding_behavior_witness :
    (requiresCall 27 (some "clang_foo") [] none
        (fun st => (st, Except.ok (0 : Nat))) [] ⟨["clang_getCString"], []⟩ =
      (⟨["clang_getCString"], []⟩, Except.error PyExc.missingFunction)) ∧
    ∃ st1, requiresCall 27 (some "clang_getCString")
        [TypeRef.concrete CTy.cxString] (some (TypeRef.concrete CTy.c_utf8_p))
        (fun st => (st, Except.ok (0 : Nat))) [] ⟨["clang_getCString"], []⟩ =
      (fun st => (st, Except.ok (0 : Nat))) st1 := by
  constructor
  · exact (requires_binding_behavior Nat 27 "clang_foo" [] none []
      ⟨["clang_getCString"], []⟩ (fun st => (st, Except.ok 0))).1 (by decide) (by decide)
  · exact (requires_binding_behavior Nat 27 "clang_getCString"
      [TypeRef.concrete CTy.cxString] (some (TypeRef.concrete CTy.c_utf8_p)) []
      ⟨["clang_getCString"], []⟩ (fun st => (st, Except.ok 0))).2 (by decide)
      (Or.inl (by decide)) ⟨[CTy.cxString], rfl⟩ ⟨some CTy.c_utf8_p, rfl⟩

/-- C4: for a present symbol, the first `_bind_api` call raises nothing and
attaches the mapped signature with the registered flag; every subsequent
`_bind_api` call for the same name, with any signature and any type table,
returns the state unchanged and raises nothing. -/
theorem bind_api_memoized (dyn dyn' : List (String × CTy)) (st : LibState)
    (name : String) (argtypes argtypes' : List TypeRef)
    (restype restype' : Option TypeRef) (ats : List CTy) (rt : Option CTy)
    (hexp : st.exported.contains name = true)
    (hlook : st.attrs.lookup name = none)
    (hats : _map_types dyn argtypes = Except.ok ats)
    (hrt : _map_restype dyn restype = Except.ok rt) :
    (_bind_api dyn st name argtypes restype).exc = none ∧
    (_bind_api dyn st name argtypes restype).state.attrs.lookup name =
      some (LibAttr.func true (some ats) (some rt)) ∧
    _bind_api dyn' (_bind_api dyn st name argtypes restype).state name argtypes' restype' =
      ⟨(_bind_api dyn st name argtypes restype).state, none⟩ := by
  rw [bind_api_fresh_present dyn st name argtypes restype ats rt hexp hlook hats hrt]
  refine ⟨rfl, lookup_setAttr_self _ _ _, ?_⟩
  exact bind_api_registered dyn' _ name argtypes' restype' (some ats) (some rt)
    (lookup_setAttr_self _ _ _)

/-- Witness for C4 at a concrete input: binding `clang_getCString` once marks
it registered and a second bind with a different signature is a no-op. -/
theorem bind_api_memoized_witness :
    (_bind_api [] ⟨["clang_getCString"], []⟩ "clang_getCString"
        [TypeRef.concrete CTy.cxString] (some (TypeRef.concrete CTy.c_utf8_p))).exc = none ∧
    (_bind_api [] ⟨["clang_getCString"], []⟩ "clang_getCString"
        [TypeRef.concrete CTy.cxString]
        (some (TypeRef.concrete CTy.c_utf8_p))).state.attrs.lookup "clang_getCString" =
      some (LibAttr.func true (some [CTy.cxString]) (some (some CTy.c_utf8_p))) ∧
    _bind_api [] (_bind_api [] ⟨["clang_getCString"], []⟩ "clang_getCString"
        [TypeRef.concrete CTy.cxString] (some (TypeRef.concrete CTy.c_utf8_p))).state
        "clang_getCString" [TypeRef.concrete CTy.c_int] none =
      ⟨(_bind_api [] ⟨["clang_getCString"], []⟩ "clang_getCString"
        [TypeRef.concrete CTy.cxString] (some (TypeRef.concrete CTy.c_utf8_p))).state,
        none⟩ :=
  bind_api_memoized [] [] ⟨["clang_getCString"], []⟩ "clang_getCString"
    [TypeRef.concrete CTy.cxString] [TypeRef.concrete CTy.c_int]
    (some (TypeRef.concrete CTy.c_utf8_p)) none [CTy.cxString] (some CTy.c_utf8_p)
    (by decide) (by decide) rfl rfl

/-- C1, evaluated at its failing input: for a symbol absent from the loaded
library, the first invocation of an `optional`-wrapped operation completes
without raising and caches the `None` sentinel as the library attribute, but
the second invocation raises AttributeError (from `_bind_api` assigning
`argtypes` on the sentinel) instead of completing. -/
theorem optional_absent_second_invocation_raises :
    (optionalCall 30 "clang_Range_isNull" [TypeRef.concrete CTy.cxSourceRange]
        (some (TypeRef.concrete CTy.c_int)) (fun st => (st, Except.ok true)) []
        ⟨["clang_isInvalid"], []⟩).2 = Except.ok true ∧
    (optionalCall 30 "clang_Range_isNull" [TypeRef.concrete CTy.cxSourceRange]
        (some (TypeRef.concrete CTy.c_int)) (fun st => (st, Except.ok true)) []
        ⟨["clang_isInvalid"], []⟩).1.attrs.lookup "clang_Range_isNull" =
      some LibAttr.none_ ∧
    (optionalCall 30 "clang_Range_isNull" [TypeRef.concrete CTy.cxSourceRange]
        (some (TypeRef.concrete CTy.c_int)) (fun st => (st, Except.ok true)) []
        (optionalCall 30 "clang_Range_isNull" [TypeRef.concrete CTy.cxSourceRange]
          (some (TypeRef.concrete CTy.c_int)) (fun st => (st, Except.ok true)) []
          ⟨["clang_isInvalid"], []⟩).1).2 = Except.error PyExc.attributeError := by
  refine ⟨rfl, by decide, rfl⟩

/-- C10: the minimum-version argument of the `requires`, `optional` and
`deprecated` decorators (and the message argument of `deprecated`) has no
effect on the wrapped operation: two runs differing only in those arguments
produce identical states and identical outcomes. -/
theorem decorator_version_ignored (α : Type) (v1 v2 : Nat) (name : Option String)
    (nm m1 m2 : String) (argtypes : List TypeRef) (restype : Option TypeRef)
    (f : Body α) (dyn : List (String × CTy)) (st : LibState) :
    requiresCall v1 name argtypes restype f dyn st =
      requiresCall v2 name argtypes restype f dyn st ∧
    optionalCall v1 nm argtypes restype f dyn st =
      optionalCall v2 nm argtypes restype f dyn st ∧
    deprecatedCall v1 m1 f st = deprecatedCall v2 m2 f st :=
  ⟨rfl, rfl, rfl⟩

/-- C5: after a successful load, the registry maps '_CXCursor' to the cursor
layout with the extra xdata tag field exactly when the detected version is at
least 3.0 and to the layout without it below 3.0, and the pointer,
pointer-to-pointer and callback entries are derived from that same chosen
layout. -/
theorem load_selects_cursor_layout (symbols : List String) (v : Nat)
    (dyn : List (String × CTy)) (h : load symbols = some (v, dyn)) :
    ((30 ≤ v → dyn.lookup "_CXCursor" = some (CTy.struct "_CXCursor30" _CXCursor30)) ∧
     (v < 30 → dyn.lookup "_CXCursor" = some (CTy.struct "_CXCursor27" _CXCursor27))) ∧
    (_CXCursor30 =
      [("kind", FieldTy.c_uint), ("xdata", FieldTy.c_int), ("data", FieldTy.c_void_p_arr 3)] ∧
     _CXCursor27 = [("kind", FieldTy.c_uint), ("data", FieldTy.c_void_p_arr 3)]) ∧
    ∃ layout, dyn.lookup "_CXCursor" = some layout ∧
      dyn.lookup "_CXCursor*" = some (CTy.pointer layout) ∧
      dyn.lookup "_CXCursor**" = some (CTy.pointer (CTy.pointer layout)) ∧
      dyn.lookup "cb_cursor_visitor" =
        some (CTy.cfunctype CTy.c_int layout layout CTy.py_object) := by
  unfold load at h
  split at h
  · exact absurd h (by simp)
  · split at h
    · simp only [Option.some.injEq, Prod.mk.injEq] at h
      obtain ⟨hv, hdyn⟩ := h
      subst hv
      subst hdyn
      refine ⟨⟨fun _ => by decide, fun hlt => absurd hlt (by omega)⟩, ⟨rfl, rfl⟩,
        CTy.struct "_CXCursor30" _CXCursor30, by decide, by decide, by decide, by decide⟩
    · simp only [Option.some.injEq, Prod.mk.injEq] at h
      obtain ⟨hv, hdyn⟩ := h
      subst hv
      subst hdyn
      refine ⟨⟨fun hge => absurd hge (by omega), fun _ => by decide⟩, ⟨rfl, rfl⟩,
        CTy.struct "_CXCursor27" _CXCursor27, by decide, by decide, by decide, by decide⟩

/-- Witness for C5 at concrete inputs: a library whose only marker is the 3.0
one gets the xdata layout and the derived types built on it; a library whose
only marker is the 2.7 one gets the layout without xdata. -/
theorem load_selects_cursor_layout_witness :
    (∃ dyn, load ["clang_Range_isNull"] = some (30, dyn) ∧
      dyn.lookup "_CXCursor" = some (CTy.struct "_CXCursor30" _CXCursor30) ∧
      ∃ layout, dyn.lookup "_CXCursor" = some layout ∧
        dyn.lookup "_CXCursor*" = some (CTy.pointer layout) ∧
        dyn.lookup "_CXCursor**" = some (CTy.pointer (CTy.pointer layout)) ∧
        dyn.lookup "cb_cursor_visitor" =
          some (CTy.cfunctype CTy.c_int layout layout CTy.py_object)) ∧
    ∃ dyn2, load ["clang_isInvalid"] = some (27, dyn2) ∧
      dyn2.lookup "_CXCursor" = some (CTy.struct "_CXCursor27" _CXCursor27) := by
  constructor
  · refine ⟨_, rfl, ?_, ?_⟩
    · exact ((load_selects_cursor_layout ["clang_Range_isNull"] 30 _ rfl).1).1 (by decide)
    · exact (load_selects_cursor_layout ["clang_Range_isNull"] 30 _ rfl).2.2
  · refine ⟨_, rfl, ?_⟩
    exact ((load_selects_cursor_layout ["clang_isInvalid"] 27 _ rfl).1).2 (by decide)

/-- Helper: a handle not in the list is neither read nor disposed by the
repeated read/dispose cycles. -/
theorem to_str_cycles_count_notmem (read : Nat → Option String) (h : Nat) :
    ∀ handles : List Nat, h ∉ handles →
      (_to_str_cycles read handles).count (StrNativeCall.disposeString h) = 0 ∧
      (_to_str_cycles read handles).count (StrNativeCall.getCString h) = 0 := by
  intro handles
  induction handles with
  | nil => intro _; exact ⟨rfl, rfl⟩
  | cons x xs ih =>
    intro hmem
    have hx : h ≠ x := fun he => hmem (he ▸ List.mem_cons_self x xs)
    have hxs : h ∉ xs := fun he => hmem (List.mem_cons_of_mem x he)
    obtain ⟨ih1, ih2⟩ := ih hxs
    constructor
    · simp [_to_str_cycles, _to_str, List.count_cons, List.count_append] at ih1 ⊢
      simp [ih1, hx, Ne.symm hx]
    · simp [_to_str_cycles, _to_str, List.count_cons, List.count_append] at ih2 ⊢
      simp [ih2, hx, Ne.symm hx]

/-- Helper: a handle occurring once in a duplicate-free list is disposed
exactly once and read exactly once by the repeated read/dispose cycles. -/
theorem to_str_cycles_count_mem (read : Nat → Option String) (h : Nat) :
    ∀ handles : List Nat, handles.Nodup → h ∈ handles →
      (_to_str_cycles read handles).count (StrNativeCall.disposeString h) = 1 ∧
      (_to_str_cycles read handles).count (StrNativeCall.getCString h) = 1 := by
  intro handles
  induction handles with
  | nil => intro _ hmem; exact absurd hmem (List.not_mem_nil h)
  | cons x xs ih =>
    intro hnd hmem
    rw [List.nodup_cons] at hnd
    rcases List.mem_cons.mp hmem with h2 | h2
    · subst h2
      obtain ⟨n1, n2⟩ := to_str_cycles_count_notmem read h xs hnd.1
      constructor
      · simp [_to_str_cycles, _to_str, List.count_cons, List.count_append] at n1 ⊢
        simp [n1]
      · simp [_to_str_cycles, _to_str, List.count_cons, List.count_append] at n2 ⊢
        simp [n2]
    · have hx : h ≠ x := fun he => hnd.1 (he ▸ h2)
      obtain ⟨m1, m2⟩ := ih hnd.2 h2
      constructor
      · simp [_to_str_cycles, _to_str, List.count_cons, List.count_append] at m1 ⊢
        simp [m1, hx, Ne.symm hx]
      · simp [_to_str_cycles, _to_str, List.count_cons, List.count_append] at m2 ⊢
        simp [m2, hx, Ne.symm hx]

/-- C6: `_to_str` invokes the native read call then the paired disposal call
on the same handle, in that order with no other native call in between, and
returns the read string; across repeated calls on distinct handles each
handle is disposed exactly once and read exactly once. -/
theorem to_str_read_then_dispose (read : Nat → Option String) (s : Nat)
    (handles : List Nat) (hnd : handles.Nodup) :
    _to_str read s =
      (read s, [StrNativeCall.getCString s, StrNativeCall.disposeString s]) ∧
    ∀ h ∈ handles,
      (_to_str_cycles read handles).count (StrNativeCall.disposeString h) = 1 ∧
      (_to_str_cycles read handles).count (StrNativeCall.getCString h) = 1 :=
  ⟨rfl, fun h hmem => to_str_cycles_count_mem read h handles hnd hmem⟩

/-- Witness for C6 at a concrete input: three distinct handles are each read
and disposed exactly once. -/
theorem to_str_read_then_dispose_witness :
    (_to_str (fun _ => some "x") 5 =
      (some "x", [StrNativeCall.getCString 5, StrNativeCall.disposeString 5])) ∧
    ∀ h ∈ [1, 2, 3],
      (_to_str_cycles (fun _ => some "x") [1, 2, 3]).count (StrNativeCall.disposeString h) = 1 ∧
      (_to_str_cycles (fun _ => some "x") [1, 2, 3]).count (StrNativeCall.getCString h) = 1 :=
  to_str_read_then_dispose (fun _ => some "x") 5 [1, 2, 3] (by decide)

/-- Helper: running the children visitor over the delivered handles appends,
in delivery order, exactly the wrapped non-null children to the accumulated
list. -/
theorem visitChildren_go (env : ClangEnv) (self : Cursor) :
    ∀ (delivered : List Nat) (acc : List Cursor),
      clang_visitChildren (childrenVisitor env self) delivered acc =
        acc ++ (delivered.filter (fun h => !(env.equalCursors h env.nullCursor))).map
          (fun h => ⟨h, some self.handle, self.tu⟩) := by
  intro delivered
  induction delivered with
  | nil => intro acc; simp [clang_visitChildren]
  | cons x xs ih =>
    intro acc
    cases hx : env.equalCursors x env.nullCursor with
    | true =>
      simp [clang_visitChildren, childrenVisitor, Cursor.ne_cursor, Cursor.eq_cursor,
        Cursor.null_cursor, hx, ih]
    | false =>
      simp [clang_visitChildren, childrenVisitor, Cursor.ne_cursor, Cursor.eq_cursor,
        Cursor.null_cursor, hx, ih, List.filter_cons]

/-- C7: the children traversal returns exactly the delivered child handles,
wrapped, in delivery order, minus every child the native equality predicate
considers equal to the null cursor; no cursor equal to the null sentinel
appears in the result. -/
theorem cursor_children_filters_null (env : ClangEnv) (self : Cursor)
    (delivered : List Nat) :
    Cursor.children env self delivered =
      (delivered.filter (fun h => !(env.equalCursors h env.nullCursor))).map
        (fun h => ⟨h, some self.handle, self.tu⟩) ∧
    ∀ c ∈ Cursor.children env self delivered,
      env.equalCursors c.handle env.nullCursor = false := by
  have hmain := visitChildren_go env self delivered []
  rw [List.nil_append] at hmain
  refine ⟨hmain, ?_⟩
  intro c hc
  rw [Cursor.children, hmain] at hc
  obtain ⟨h, hh, rfl⟩ := List.mem_map.mp hc
  have := List.mem_filter.mp hh
  simpa using this.2

/-- Witness for C7 at a concrete input: delivered handles 0, 3, 0, 4 with
null handle 0 yield exactly the wrapped cursors 3 and 4 in order, and the
first result is not null. -/
theorem cursor_children_filters_null_witness :
    Cursor.children ⟨fun a b => a == b, 0⟩ ⟨5, none, some 1⟩ [0, 3, 0, 4] =
      [⟨3, some 5, some 1⟩, ⟨4, some 5, some 1⟩] ∧
    (⟨fun a b => a == b, 0⟩ : ClangEnv).equalCursors
      (⟨3, some 5, some 1⟩ : Cursor).handle 0 = false := by
  have h := cursor_children_filters_null ⟨fun a b => a == b, 0⟩ ⟨5, none, some 1⟩ [0, 3, 0, 4]
  constructor
  · rw [h.1]; rfl
  · refine h.2 ⟨3, some 5, some 1⟩ ?_
    rw [h.1]
    decide

/-- Helper: a string of n copies of the one-byte character a encodes to n
UTF-8 bytes. -/
theorem encodeUTF8_replicate_length (n : Nat) :
    (encodeUTF8 (String.mk (List.replicate n 'a'))).length = n := by
  show ((List.replicate n 'a').map (fun ch => utf8Bytes ch.toNat)).flatten.length = n
  rw [List.map_replicate]
  have ha : utf8Bytes (Char.toNat 'a') = [97] := rfl
  rw [ha]
  induction n with
  | zero => rfl
  | succ m ih => simp [List.replicate_succ, ih]

/-- Helper: marshalling a single unsaved file, stated symbolically so that
nothing forces evaluation of the contents. -/
theorem marshall_unsaved_single (name : String) (c : PyContents) :
    (_marshall_unsaved_files (some [(name, c)])).2 =
      some [⟨encodeUTF8 name, readOrEncode c, (readOrEncode c).length % 2 ^ 32⟩] := rfl

/-- Counterexample for C8 as stated: for contents of 2^32 one-byte
characters, the populated length field is 0 (the `c_uint` assignment masks
`len(contents)` to 32 bits) while the byte length of the normalized contents
is 2^32, so the length field does not equal the byte length. -/
theorem marshall_unsaved_files_length_wraps :
    (_marshall_unsaved_files (some [("big.c",
        PyContents.str (String.mk (List.replicate (2 ^ 32) 'a')))])).2 =
      some [⟨encodeUTF8 "big.c",
        encodeUTF8 (String.mk (List.replicate (2 ^ 32) 'a')), 0⟩] ∧
    (readOrEncode (PyContents.str (String.mk (List.replicate (2 ^ 32) 'a')))).length =
      2 ^ 32 ∧
    (0 : Nat) ≠ 2 ^ 32 := by
  refine ⟨?_, ?_, by decide⟩
  · rw [marshall_unsaved_single]
    rw [show readOrEncode (PyContents.str (String.mk (List.replicate (2 ^ 32) 'a'))) =
        encodeUTF8 (String.mk (List.replicate (2 ^ 32) 'a')) from rfl]
    rw [encodeUTF8_replicate_length, Nat.mod_self]
  · rw [show readOrEncode (PyContents.str (String.mk (List.replicate (2 ^ 32) 'a'))) =
        encodeUTF8 (String.mk (List.replicate (2 ^ 32) 'a')) from rfl]
    exact encodeUTF8_replicate_length (2 ^ 32)

/-- C8 (amended): `_marshall_unsaved_files` returns the list length as count
and an array whose elements hold the encoded filename, the normalized
contents bytes (stream-like sources are read first, strings encoded directly)
and the byte length of those contents reduced modulo 2^32 (the width of the
`c_uint` length field the assignment masks to); an absent or empty list
yields count 0 and a null array. -/
theorem marshall_unsaved_files_spec (ufs : List (String × PyContents))
    (name : String) (c : PyContents) (i : Nat)
    (hne : ufs ≠ []) (hi : ufs[i]? = some (name, c)) :
    (_marshall_unsaved_files (some ufs)).1 = ufs.length ∧
    (∃ arr, (_marshall_unsaved_files (some ufs)).2 = some arr ∧
      arr.length = ufs.length ∧
      arr[i]? = some ⟨encodeUTF8 name, readOrEncode c,
        (readOrEncode c).length % 2 ^ 32⟩) ∧
    (∀ d, readOrEncode (PyContents.stream d) = encodeUTF8 d) ∧
    (∀ s, readOrEncode (PyContents.str s) = encodeUTF8 s) ∧
    _marshall_unsaved_files none = (0, none) ∧
    _marshall_unsaved_files (some []) = (0, none) := by
  have hlen : ¬(ufs.length = 0) := by simpa using hne
  refine ⟨?_,
    ⟨ufs.map (fun p =>
        ⟨encodeUTF8 p.1, readOrEncode p.2, (readOrEncode p.2).length % 2 ^ 32⟩),
      ?_, ?_, ?_⟩,
    fun d => rfl, fun s => rfl, rfl, rfl⟩
  · simp [_marshall_unsaved_files, hlen]
  · simp [_marshall_unsaved_files, hlen]
  · simp
  · rw [List.getElem?_map, hi]
    rfl

/-- Witness for C8 at a concrete input: two unsaved files, one with string
contents and one with stream contents. -/
theorem marshall_unsaved_files_spec_witness :
    (_marshall_unsaved_files (some [("a.c", PyContents.str "ab"),
        ("b.c", PyContents.stream "xyz")])).1 =
      ([("a.c", PyContents.str "ab"), ("b.c", PyContents.stream "xyz")] :
        List (String × PyContents)).length ∧
    (∃ arr, (_marshall_unsaved_files (some [("a.c", PyContents.str "ab"),
        ("b.c", PyContents.stream "xyz")])).2 = some arr ∧
      arr.length = ([("a.c", PyContents.str "ab"), ("b.c", PyContents.stream "xyz")] :
        List (String × PyContents)).length ∧
      arr[1]? = some ⟨encodeUTF8 "b.c", readOrEncode (PyContents.stream "xyz"),
        (readOrEncode (PyContents.stream "xyz")).length % 2 ^ 32⟩) ∧
    (∀ d, readOrEncode (PyContents.stream d) = encodeUTF8 d) ∧
    (∀ s, readOrEncode (PyContents.str s) = encodeUTF8 s) ∧
    _marshall_unsaved_files none = (0, none) ∧
    _marshall_unsaved_files (some []) = (0, none) :=
  marshall_unsaved_files_spec
    [("a.c", PyContents.str "ab"), ("b.c", PyContents.stream "xyz")]
    "b.c" (PyContents.stream "xyz") 1 (by decide) (by decide)

/-- C9, evaluated at its failing input: `SourceRange.start` wraps the result
of the native range-start call, but the body of `SourceRange.end` also calls
`clang_getRangeStart` (libclang.py line 418), so in an environment where the
range's start and end locations differ the end accessor returns the start
location, never invokes `clang_getRangeEnd`, and its result differs from the
native range-end location. -/
theorem sourceRange_end_returns_start :
    (∀ env r, SourceRange.start env r =
      (⟨env.getRangeStart r.sr⟩, [RangeNativeCall.getRangeStart r.sr])) ∧
    SourceRange.end_ ⟨fun _ => 100, fun _ => 200⟩ ⟨0⟩ =
      (⟨100⟩, [RangeNativeCall.getRangeStart 0]) ∧
    (SourceRange.end_ ⟨fun _ => 100, fun _ => 200⟩ ⟨0⟩).1 ≠
      ⟨(⟨fun _ => 100, fun _ => 200⟩ : RangeEnv).getRangeEnd 0⟩ ∧
    RangeNativeCall.getRangeEnd 0 ∉ (SourceRange.end_ ⟨fun _ => 100, fun _ => 200⟩ ⟨0⟩).2 :=
  ⟨fun env r => rfl, rfl, by decide, by decide⟩

end Libclangpy
